import Mathlib

/-!
# Verification of autoyear (src/src/index.tsx)

Shallow embedding of the autoyear React package: the `AutoYear` and
`Copyright` components and the `useAutoYear` / `useCopyright` hooks.

Modelling conventions:
* JavaScript `number` year values are `Int` (the spec restricts them to
  integers); `number.toString()` and template interpolation are modelled
  by `toString : Int → String`, which produces the same decimal text.
* Optional props (`prefix?`, `name?`, `startYear?`, `separator?`) are
  `Option` fields; a destructuring default (`prefix = "©"`) becomes
  `Option.getD`.
* The JS truthiness test `startYear && startYear < currentYear` is falsy
  exactly when `startYear` is `undefined` or the number `0` (`NaN` lies
  outside the integer domain of the spec), so it is embedded as the
  condition `s ≠ 0 ∧ s < currentYear` on `some s`, and `false` on `none`.
* `[prefix, yearDisplay, name].filter(Boolean)` on an array of
  strings-or-undefined keeps exactly the present, non-empty strings
  (`jsFilterBoolean`); `Array.prototype.join(sep)` is `String.intercalate`.
* The call `new Date().getFullYear()` made inside each component and hook
  is modelled by an explicit parameter `currentYear : Int`, the value the
  host clock returns at that call.
-/

/-- Result of `[...].filter(Boolean)` on an array whose entries are strings
or `undefined`: `undefined` and the empty string `""` are falsy and get
dropped, every other string is kept in order. -/
def jsFilterBoolean (l : List (Option String)) : List String :=
  l.filterMap (fun x =>
    match x with
    | some s => if s = "" then none else some s
    | none => none)

/-- Options of the `useCopyright` hook (interface `UseCopyrightOptions`,
identical to the formatting fields of `CopyrightProps`). The source field
named `prefix` is `prefixStr` here, since `prefix` is a Lean keyword. -/
structure UseCopyrightOptions where
  prefixStr : Option String := none
  name : Option String := none
  startYear : Option Int := none
  separator : Option String := none
deriving Repr, DecidableEq

/-- The `yearDisplay` expression of `useCopyright`: the conditional
`startYear && startYear < currentYear` choosing between the range text
interpolation and `currentYear.toString()`. -/
def yearDisplay (startYear : Option Int) (currentYear : Int) : String :=
  match startYear with
  | some s =>
      if s ≠ 0 ∧ s < currentYear then
        toString s ++ "-" ++ toString currentYear
      else
        toString currentYear
  | none => toString currentYear

/-- The `useCopyright` hook: destructure the options with defaults
`prefix = "©"` and `separator = " "`, compute `yearDisplay`, then return
`[prefix, yearDisplay, name].filter(Boolean).join(separator)`.
`currentYear` models the internal `new Date().getFullYear()` read. -/
def useCopyright (options : UseCopyrightOptions) (currentYear : Int) : String :=
  let p := options.prefixStr.getD "©"
  let separator := options.separator.getD " "
  let yd := yearDisplay options.startYear currentYear
  String.intercalate separator (jsFilterBoolean [some p, some yd, options.name])

/-- Props of the `Copyright` component (interface `CopyrightProps extends
AutoYearProps`): the rendering props `as`, `className`, `style` plus the
four formatting props. The inline style map is kept abstract as a list of
key/value pairs. -/
structure CopyrightProps where
  asTag : Option String := none
  className : Option String := none
  style : Option (List (String × String)) := none
  prefixStr : Option String := none
  name : Option String := none
  startYear : Option Int := none
  separator : Option String := none

/-- The element produced by `React.createElement(Component, { className,
style }, text)`: a tag, the forwarded attributes, and the text child. -/
structure ReactElement where
  tag : String
  className : Option String
  style : Option (List (String × String))
  child : String
deriving DecidableEq

/-- The `text` computed inside the body of the `Copyright` component,
embedded independently of `useCopyright` (the source duplicates the
logic): defaults `prefix = "©"` and `separator = " "`, the conditional
`startYear && startYear < currentYear` choosing the year display, then
`[prefix, yearDisplay, name].filter(Boolean).join(separator)`. -/
def Copyright.textOf (props : CopyrightProps) (currentYear : Int) : String :=
  let p := props.prefixStr.getD "©"
  let separator := props.separator.getD " "
  let yd : String :=
    match props.startYear with
    | some s =>
        if s ≠ 0 ∧ s < currentYear then
          toString s ++ "-" ++ toString currentYear
        else
          toString currentYear
    | none => toString currentYear
  String.intercalate separator (jsFilterBoolean [some p, some yd, props.name])

/-- The `Copyright` component: wraps its text in the element named by
`as` (default `"span"`), forwarding `className` and `style`. -/
def Copyright.render (props : CopyrightProps) (currentYear : Int) : ReactElement :=
  { tag := props.asTag.getD "span"
    className := props.className
    style := props.style
    child := Copyright.textOf props currentYear }

/-- The `AutoYear` component: renders `year.toString()` inside the element
named by `as` (default `"span"`), forwarding `className` and `style`. -/
def AutoYear.render (asTag className : Option String)
    (style : Option (List (String × String))) (currentYear : Int) : ReactElement :=
  { tag := asTag.getD "span"
    className := className
    style := style
    child := toString currentYear }

/-- The `useAutoYear` hook: returns the current year of the clock
unchanged. -/
def useAutoYear (currentYear : Int) : Int :=
  currentYear

/-! ## Helper lemmas -/

/-- `filter(Boolean)` skips an absent (`undefined`) entry. -/
theorem jsFilterBoolean_none (l : List (Option String)) :
    jsFilterBoolean (none :: l) = jsFilterBoolean l := rfl

/-- `filter(Boolean)` keeps a present, non-empty string. -/
theorem jsFilterBoolean_some_ne (s : String) (l : List (Option String)) (h : s ≠ "") :
    jsFilterBoolean (some s :: l) = s :: jsFilterBoolean l := by
  simp [jsFilterBoolean, List.filterMap_cons, h]

/-- `filter(Boolean)` drops a present but empty string. -/
theorem jsFilterBoolean_some_empty (l : List (Option String)) :
    jsFilterBoolean (some "" :: l) = jsFilterBoolean l := rfl

/-- `filter(Boolean)` on strings-or-undefined equals mapping `undefined`
to `""` and then filtering out the empty strings. -/
theorem jsFilterBoolean_eq_filter (l : List (Option String)) :
    jsFilterBoolean l = (l.map (fun x => x.getD "")).filter (fun s => !(s == "")) := by
  induction l with
  | nil => rfl
  | cons a l ih =>
    cases a with
    | none => simpa [jsFilterBoolean, List.filterMap_cons] using ih
    | some s =>
      by_cases hs : s = "" <;>
        simp_all [jsFilterBoolean, List.filterMap_cons, List.filter_cons]

/-- `Nat.toDigitsCore` never shortens its accumulator. -/
theorem toDigitsCore_len_ge (b : Nat) :
    ∀ (f n : Nat) (ds : List Char), ds.length ≤ (Nat.toDigitsCore b f n ds).length := by
  intro f
  induction f with
  | zero => intro n ds; simp [Nat.toDigitsCore]
  | succ f ih =>
    intro n ds
    simp only [Nat.toDigitsCore]
    split
    · simp
    · calc ds.length ≤ (Nat.digitChar (n % b) :: ds).length := Nat.le_succ _
        _ ≤ _ := ih (n / b) _

/-- The decimal representation of a natural number is never empty. -/
theorem nat_repr_ne_empty (n : Nat) : Nat.repr n ≠ "" := by
  have h : 1 ≤ (Nat.toDigits 10 n).length := by
    simp only [Nat.toDigits, Nat.toDigitsCore]
    split
    · simp
    · exact toDigitsCore_len_ge 10 n (n / 10) [Nat.digitChar (n % 10)]
  intro hc
  have h0 : (Nat.repr n).length = 0 := by rw [hc]; rfl
  simp only [Nat.repr, List.asString, String.length] at h0
  omega

/-- The decimal representation of an integer is never empty. -/
theorem toString_int_ne_empty (y : Int) : toString y ≠ "" := by
  cases y with
  | ofNat m => exact nat_repr_ne_empty m
  | negSucc m =>
    intro hc
    have h0 : ("-" ++ Nat.repr (m+1)).length = 0 := by
      rw [show ("-" ++ Nat.repr (m+1)) = toString (Int.negSucc m) from rfl, hc]; rfl
    rw [String.length_append] at h0
    have h1 : ("-" : String).length = 1 := rfl
    omega

/-- A string of positive length is not the empty string. -/
theorem string_ne_empty_of_length_pos (s : String) (h : 0 < s.length) : s ≠ "" :=
  fun hc => absurd (hc ▸ h) (by decide)

/-- A non-empty string has positive length. -/
theorem string_length_pos_of_ne_empty (s : String) (h : s ≠ "") : 0 < s.length := by
  cases s with | mk l =>
  cases l with
  | nil => exact absurd rfl h
  | cons c cs => simp [String.length]

/-- The year display segment is never the empty string. -/
theorem yearDisplay_ne_empty (st : Option Int) (y : Int) : yearDisplay st y ≠ "" := by
  cases st with
  | none => exact toString_int_ne_empty y
  | some s =>
    simp only [yearDisplay]
    split
    · apply string_ne_empty_of_length_pos
      rw [String.length_append]
      have := string_length_pos_of_ne_empty _ (toString_int_ne_empty y)
      omega
    · exact toString_int_ne_empty y

/-- The accumulator of `String.intercalate.go` only grows. -/
theorem intercalate_go_len (s : String) :
    ∀ (as : List String) (acc : String),
      acc.length ≤ (String.intercalate.go acc s as).length := by
  intro as
  induction as with
  | nil => intro acc; simp [String.intercalate.go]
  | cons a as ih =>
    intro acc
    calc acc.length ≤ (acc ++ s ++ a).length := by
          rw [String.length_append, String.length_append]; omega
      _ ≤ _ := ih _

/-- Joining a list whose head is non-empty yields a non-empty string. -/
theorem intercalate_cons_ne_empty (s a : String) (as : List String) (ha : a ≠ "") :
    String.intercalate s (a :: as) ≠ "" := by
  apply string_ne_empty_of_length_pos
  show 0 < (String.intercalate.go a s as).length
  have h1 := string_length_pos_of_ne_empty a ha
  have h2 := intercalate_go_len s as a
  omega

/-! ## Claim theorems -/

/-- Claim C1, counterexample: the year-display rule as stated fails at
`startYear = 0`. The number `0` is present and `0 < 2024`, yet
`useCopyright` yields `"© 2024"`, not the range `"© 0-2024"` required by
the claim, because JS truthiness treats `0` as absent. -/
theorem useCopyright_year_rule_cex :
    useCopyright { startYear := some 0 } 2024 = "© 2024" ∧ "© 2024" ≠ "© 0-2024" :=
  ⟨rfl, by decide⟩

/-- Claim C1, amended: if `startYear` is present, non-zero and strictly
below `currentYear`, the year segment is `"{startYear}-{currentYear}"`
(and with the other options defaulted the full string is
`"© {S}-{Y}"`); if `startYear` is at least the current year, or absent,
the segment is just `"{currentYear}"` (full string `"© {Y}"`). -/
theorem useCopyright_year_rule (o : UseCopyrightOptions) (S y : Int) :
    (S ≠ 0 → S < y →
      yearDisplay (some S) y = toString S ++ "-" ++ toString y ∧
      useCopyright { o with startYear := some S } y =
        String.intercalate (o.separator.getD " ")
          (jsFilterBoolean [some (o.prefixStr.getD "©"),
            some (toString S ++ "-" ++ toString y), o.name]) ∧
      useCopyright { startYear := some S } y =
        "© " ++ (toString S ++ "-" ++ toString y)) ∧
    (y ≤ S →
      yearDisplay (some S) y = toString y ∧
      useCopyright { startYear := some S } y = "© " ++ toString y) ∧
    yearDisplay none y = toString y := by
  refine ⟨fun hS hlt => ?_, fun hge => ?_, rfl⟩
  · have hyd : yearDisplay (some S) y = toString S ++ "-" ++ toString y := by
      simp [yearDisplay, hS, hlt]
    refine ⟨hyd, ?_, ?_⟩
    · show String.intercalate (o.separator.getD " ")
        (jsFilterBoolean [some (o.prefixStr.getD "©"), some (yearDisplay (some S) y), o.name]) = _
      rw [hyd]
    · show String.intercalate " "
        (jsFilterBoolean [some "©", some (yearDisplay (some S) y), none]) = _
      rw [hyd, jsFilterBoolean_some_ne _ _ (by decide),
        jsFilterBoolean_some_ne _ _ (hyd ▸ yearDisplay_ne_empty (some S) y), jsFilterBoolean_none]
      rfl
  · have hyd : yearDisplay (some S) y = toString y := by
      have hnot : ¬ (S ≠ 0 ∧ S < y) := by
        rintro ⟨-, hlt⟩; omega
      simp [yearDisplay, hnot]
    refine ⟨hyd, ?_⟩
    show String.intercalate " "
      (jsFilterBoolean [some "©", some (yearDisplay (some S) y), none]) = _
    rw [hyd, jsFilterBoolean_some_ne _ _ (by decide),
      jsFilterBoolean_some_ne _ _ (toString_int_ne_empty y), jsFilterBoolean_none]
    rfl

/-- Claim C1, witness: the amended rule at `startYear = 2020` below the
current year `2026`, and at `startYear = 2030` at or above it. -/
theorem useCopyright_year_rule_witness :
    useCopyright { startYear := some 2020 } 2026 = "© 2020-2026" ∧
      useCopyright { startYear := some 2030 } 2026 = "© 2026" :=
  ⟨((useCopyright_year_rule {} 2020 2026).1 (by decide) (by decide)).2.2,
   ((useCopyright_year_rule {} 2030 2026).2.1 (by decide)).2⟩

/-- Claim C2: the formatted string is the ordered parts
`[prefix, yearDisplay, name]` with absent entries read as empty, the
empty entries dropped, and the rest joined with the separator; in
particular a custom separator replaces every joining space, as in
`useCopyright` of name `"X"` and separator `"-"` at year `2024` giving
`"©-2024-X"`. -/
theorem useCopyright_assembly (o : UseCopyrightOptions) (y : Int) :
    useCopyright o y =
      String.intercalate (o.separator.getD " ")
        (([o.prefixStr.getD "©", yearDisplay o.startYear y,
            o.name.getD ""].filter (fun s => !(s == "")))) ∧
    useCopyright { name := some "X", separator := some "-" } 2024 = "©-2024-X" := by
  constructor
  · show String.intercalate (o.separator.getD " ")
      (jsFilterBoolean [some (o.prefixStr.getD "©"),
        some (yearDisplay o.startYear y), o.name]) = _
    rw [jsFilterBoolean_eq_filter]
    rfl
  · rfl

/-- Claim C3: with all options defaulted, the formatted string at current
year `y` is exactly `"© "` followed by the decimal year. -/
theorem useCopyright_defaults (y : Int) :
    useCopyright {} y = "© " ++ toString y := by
  show String.intercalate " "
      (jsFilterBoolean [some "©", some (yearDisplay none y), none]) = "© " ++ toString y
  rw [jsFilterBoolean_some_ne _ _ (by decide),
    jsFilterBoolean_some_ne _ _ (yearDisplay_ne_empty none y), jsFilterBoolean_none]
  rfl

/-- Claim C4, counterexample: with the empty name the claimed output
`"© 2024 "` (trailing separator and empty name) differs from the actual
output `"© 2024"`, because `filter(Boolean)` drops the empty name. -/
theorem useCopyright_empty_name_cex :
    useCopyright { name := some "" } 2024 = "© 2024" ∧ "© 2024" ≠ "© 2024 " :=
  ⟨rfl, by decide⟩

/-- Claim C4, amended: for every non-empty name `N`, formatting with
`name = N` and the other options defaulted yields `"© {Y} {N}"`. -/
theorem useCopyright_with_name (y : Int) (N : String) (h : N ≠ "") :
    useCopyright { name := some N } y = "© " ++ toString y ++ " " ++ N := by
  show String.intercalate " "
      (jsFilterBoolean [some "©", some (yearDisplay none y), some N]) = _
  rw [jsFilterBoolean_some_ne _ _ (by decide),
    jsFilterBoolean_some_ne _ _ (yearDisplay_ne_empty none y),
    jsFilterBoolean_some_ne _ _ h]
  rfl

/-- Claim C4, witness: name `"Acme Inc"` at year `2026`. -/
theorem useCopyright_with_name_witness :
    useCopyright { name := some "Acme Inc" } 2026 = "© 2026 Acme Inc" :=
  useCopyright_with_name 2026 "Acme Inc" (by decide)

/-- Claim C5: with the empty prefix the prefix segment is omitted
entirely: the output is the separator-join of the remaining non-empty
parts, i.e. the bare year display, or the year display followed by one
separator and the name, with no stray separator for the missing
prefix. -/
theorem useCopyright_empty_prefix (y : Int) (st : Option Int) (n sep : Option String) :
    useCopyright { prefixStr := some "", name := n, startYear := st, separator := sep } y =
      String.intercalate (sep.getD " ") (jsFilterBoolean [some (yearDisplay st y), n]) ∧
    (useCopyright { prefixStr := some "", name := n, startYear := st, separator := sep } y =
        yearDisplay st y ∨
      ∃ nm, n = some nm ∧ nm ≠ "" ∧
        useCopyright { prefixStr := some "", name := n, startYear := st, separator := sep } y =
          yearDisplay st y ++ sep.getD " " ++ nm) := by
  have h1 : useCopyright { prefixStr := some "", name := n, startYear := st, separator := sep } y =
      String.intercalate (sep.getD " ") (jsFilterBoolean [some (yearDisplay st y), n]) := by
    show String.intercalate (sep.getD " ")
      (jsFilterBoolean (some "" :: [some (yearDisplay st y), n])) = _
    rw [jsFilterBoolean_some_empty]
  refine ⟨h1, ?_⟩
  cases n with
  | none =>
    left
    rw [h1, jsFilterBoolean_some_ne _ _ (yearDisplay_ne_empty st y), jsFilterBoolean_none]
    rfl
  | some nm =>
    by_cases hnm : nm = ""
    · left
      subst hnm
      rw [h1, jsFilterBoolean_some_ne _ _ (yearDisplay_ne_empty st y), jsFilterBoolean_some_empty]
      rfl
    · right
      refine ⟨nm, rfl, hnm, ?_⟩
      rw [h1, jsFilterBoolean_some_ne _ _ (yearDisplay_ne_empty st y),
        jsFilterBoolean_some_ne _ _ hnm]
      rfl

/-- Claim C6: for every combination of options, props and year, the
formatter and both display entry points terminate normally and return a
value; the embedding has no error branch at all. -/
theorem autoyear_totality (o : UseCopyrightOptions) (p : CopyrightProps)
    (asTag className : Option String) (style : Option (List (String × String))) (y : Int) :
    (∃ s : String, useCopyright o y = s) ∧
    (∃ e : ReactElement, Copyright.render p y = e) ∧
    (∃ e : ReactElement, AutoYear.render asTag className style y = e) ∧
    (∃ n : Int, useAutoYear y = n) :=
  ⟨⟨_, rfl⟩, ⟨_, rfl⟩, ⟨_, rfl⟩, ⟨_, rfl⟩⟩

/-- Claim C7: determinism. The formatter is a pure function of the
options and of `currentYear` (the clock value, an external input of the
embedding): two runs on equal inputs produce the identical string, for
the hook as well as for the component text. -/
theorem useCopyright_deterministic (o₁ o₂ : UseCopyrightOptions) (p₁ p₂ : CopyrightProps)
    (y₁ y₂ : Int) (ho : o₁ = o₂) (hp : p₁ = p₂) (hy : y₁ = y₂) :
    useCopyright o₁ y₁ = useCopyright o₂ y₂ ∧
    Copyright.textOf p₁ y₁ = Copyright.textOf p₂ y₂ := by
  subst ho; subst hp; subst hy; exact ⟨rfl, rfl⟩

/-- Claim C7, witness: two runs on the same concrete inputs. -/
theorem useCopyright_deterministic_witness :
    useCopyright { name := some "Acme Inc" } 2026 =
      useCopyright { name := some "Acme Inc" } 2026 ∧
    Copyright.textOf { name := some "Acme Inc" } 2026 =
      Copyright.textOf { name := some "Acme Inc" } 2026 :=
  useCopyright_deterministic _ _ _ _ _ _ rfl rfl rfl

/-- Claim C8: the text computed inside the `Copyright` component equals
the string returned by the `useCopyright` hook on the same formatting
options and year — the two duplicated implementations agree. -/
theorem copyright_component_agrees_with_hook (p : CopyrightProps) (y : Int) :
    Copyright.textOf p y =
      useCopyright { prefixStr := p.prefixStr, name := p.name,
                     startYear := p.startYear, separator := p.separator } y ∧
    (Copyright.render p y).child =
      useCopyright { prefixStr := p.prefixStr, name := p.name,
                     startYear := p.startYear, separator := p.separator } y :=
  ⟨rfl, rfl⟩

/-- Claim C9: at `startYear = 0` with current year `y > 0` no range is
shown even though `0 < y`: the year display is just the current year,
options with `startYear = 0` format exactly like options without a
start year, and the default-options output is `"© {y}"`. -/
theorem useCopyright_startYear_zero (o : UseCopyrightOptions) (y : Int) (hy : 0 < y) :
    yearDisplay (some 0) y = toString y ∧
    useCopyright { o with startYear := some 0 } y =
      useCopyright { o with startYear := none } y ∧
    useCopyright { startYear := some 0 } y = "© " ++ toString y := by
  refine ⟨rfl, rfl, ?_⟩
  show String.intercalate " "
    (jsFilterBoolean [some "©", some (yearDisplay (some 0) y), none]) = _
  rw [show yearDisplay (some 0) y = toString y from rfl,
    jsFilterBoolean_some_ne _ _ (by decide),
    jsFilterBoolean_some_ne _ _ (toString_int_ne_empty y), jsFilterBoolean_none]
  rfl

/-- Claim C9, witness: `startYear = 0` at current year `2024`. -/
theorem useCopyright_startYear_zero_witness :
    (0 : Int) < 2024 ∧ useCopyright { startYear := some 0 } 2024 = "© 2024" :=
  ⟨by decide, (useCopyright_startYear_zero {} 2024 (by decide)).2.2⟩

/-- Claim C10: the year display is never dropped by the empty-entry
filter — it is always among the joined parts — and consequently the
formatted string is non-empty, whatever the options are. -/
theorem useCopyright_year_always_present (o : UseCopyrightOptions) (y : Int) :
    yearDisplay o.startYear y ∈
      jsFilterBoolean [some (o.prefixStr.getD "©"),
        some (yearDisplay o.startYear y), o.name] ∧
    useCopyright o y ≠ "" := by
  have hyd := yearDisplay_ne_empty o.startYear y
  by_cases hp : o.prefixStr.getD "©" = ""
  · constructor
    · rw [hp, jsFilterBoolean_some_empty, jsFilterBoolean_some_ne _ _ hyd]
      exact List.mem_cons_self _ _
    · show String.intercalate (o.separator.getD " ")
        (jsFilterBoolean [some (o.prefixStr.getD "©"),
          some (yearDisplay o.startYear y), o.name]) ≠ ""
      rw [hp, jsFilterBoolean_some_empty, jsFilterBoolean_some_ne _ _ hyd]
      exact intercalate_cons_ne_empty _ _ _ hyd
  · constructor
    · rw [jsFilterBoolean_some_ne _ _ hp, jsFilterBoolean_some_ne _ _ hyd]
      exact List.mem_cons_of_mem _ (List.mem_cons_self _ _)
    · show String.intercalate (o.separator.getD " ")
        (jsFilterBoolean [some (o.prefixStr.getD "©"),
          some (yearDisplay o.startYear y), o.name]) ≠ ""
      rw [jsFilterBoolean_some_ne _ _ hp]
      exact intercalate_cons_ne_empty _ _ _ hp
